import Mathlib

/-!
Verification development for the roadrunner SMTP ingestion plugin.

The repository contains two co-existing generations of the plugin:

* the `backend` Go package (src/backend/session.go together with the
  `ParseEmail` parser and the `handler` event structs), used by the
  `Plugin` in src/rpc.go — modelled below in namespace `Backend` /
  `Handler` / `Plugin`;
* an older `smtp` Go package session (the second file of
  src/unnamed/part_001, src/parser.go, src/unnamed/part_008) — modelled
  below in namespace `SmtpPkg`.

Pure functions of the Go source are translated into Lean functions.
Calls into the Go standard library (RFC 5322 header parsing, MIME media
type parsing, multipart streaming, base64 / quoted-printable decoding,
file writes) and into external collaborators (the worker pool) are
modelled as explicit oracle inputs: each call site receives, as part of
the input, the value the library call would return there.  Byte slices
are modelled as `String` (Go converts freely between the two), sizes as
`Nat`.  The `Str` namespace holds kernel-computable counterparts of the
Go `strings` / `unicode/utf8` primitives the translated code calls.
-/

namespace Str

/-- Go's `strings.HasPrefix s pre`. -/
def startsWith (s pre : String) : Bool := pre.data.isPrefixOf s.data

/-- Go's `strings.ToLower` (ASCII case mapping suffices here). -/
def toLower (s : String) : String := String.mk (s.data.map Char.toLower)

/-- Go's `strings.TrimSpace`. -/
def trim (s : String) : String :=
  String.mk (((s.data.dropWhile Char.isWhitespace).reverse.dropWhile
    Char.isWhitespace).reverse)

/-- UTF-8 encoding of one character. -/
def utf8Bytes (c : Char) : List Nat :=
  let n := c.toNat
  if n < 128 then [n]
  else if n < 2048 then [192 + n / 64, 128 + n % 64]
  else if n < 65536 then [224 + n / 4096, 128 + n / 64 % 64, 128 + n % 64]
  else [240 + n / 262144, 128 + n / 4096 % 64, 128 + n / 64 % 64, 128 + n % 64]

/-- The bytes of a Go string (UTF-8 code units). -/
def bytes (s : String) : List Nat := (s.data.map utf8Bytes).flatten

/-- Split at a single-character separator (the `strings.Split` /
`strings.Index` uses below need only this case). -/
def splitOn (sep : Char) (s : String) : List String :=
  (s.data.splitOn sep).map String.mk

end Str

namespace Handler

/-- Worker verdict byte string `CONTINUE` (src/unnamed/part_007). -/
def CONTINUE : String := "CONTINUE"

/-- Worker verdict byte string `CLOSE` (src/unnamed/part_007). -/
def CLOSE : String := "CLOSE"

/-- Event kind literal (src/unnamed/part_007). -/
def EventEmailReceived : String := "EMAIL_RECEIVED"

/-- `Envelope` struct of src/unnamed/part_007.  The Go field `to` is
called `rcptTo` here (`to` is reserved in Lean). -/
structure Envelope where
  mailFrom : String
  rcptTo : List String
  helo : String
deriving Repr, DecidableEq

/-- `Authentication` struct of src/unnamed/part_007. -/
structure Authentication where
  attempted : Bool
  mechanism : String
  username : String
  password : String
deriving Repr, DecidableEq

/-- `Message` struct of src/unnamed/part_007.  Headers are the joined
multi-value map produced by `ParseEmail`. -/
structure Message where
  headers : List (String × String)
  body : String
  raw : String
deriving Repr, DecidableEq

/-- `Attachment` struct of src/unnamed/part_007.  The Go zero value `""`
stands for an absent `content` / `path` string. -/
structure Attachment where
  filename : String
  contentType : String
  size : Nat
  content : String
  path : String
deriving Repr, DecidableEq

/-- `EmailEvent` struct of src/unnamed/part_007.  `authentication` is a
pointer in Go, hence an `Option`; `receivedAt` is the timestamp oracle. -/
structure EmailEvent where
  event : String
  server : String
  uuid : String
  remoteAddr : String
  receivedAt : Nat
  envelope : Envelope
  authentication : Option Authentication
  message : Message
  attachments : List Attachment
deriving Repr, DecidableEq

/-- JSON presence of the `attachments` field.  The struct tag in
src/unnamed/part_007 is `json:"attachments,omitempty"`; under Go's
encoding/json (and goccy/go-json) `omitempty` semantics a slice of
length 0 — nil or empty — is omitted from the serialized object. -/
def EmailEvent.attachmentsFieldPresent (e : EmailEvent) : Bool :=
  !e.attachments.isEmpty

/-- JSON presence of the `authentication` field: tag
`json:"authentication,omitempty"` on a pointer — omitted iff nil. -/
def EmailEvent.authenticationFieldPresent (e : EmailEvent) : Bool :=
  e.authentication.isSome

/-- JSON presence of the `message.raw` field: tag `json:"raw,omitempty"`
on a string — omitted iff empty. -/
def EmailEvent.rawFieldPresent (e : EmailEvent) : Bool :=
  e.message.raw ≠ ""

end Handler

namespace Mime

/-- One part of a multipart stream as `ParseEmail` (src/unnamed/part_001)
and `processPart` (src/parser.go) observe it, with the values the Go
standard library returns at each call site for this part:

* `contentTypeHeader` — `part.Header.Get("Content-Type")`;
* `mediaType` — media type from `mime.ParseMediaType` on that header
  (Go lower-cases it; an unparsable header yields `""`);
* `disposition` — `part.Header.Get("Content-Disposition")`;
* `filenameParam` — `dispositionParams["filename"]` (`""` if absent);
* `fileName` — `part.FileName()` (used only by src/parser.go);
* `transferEncoding` — `part.Header.Get("Content-Transfer-Encoding")`;
* `content` — the bytes `io.ReadAll(part)` would deliver;
* `decodeResult` — what the standard-library base64 / quoted-printable
  decoder returns on `content` (`none` = decode failure);
* `nextPartError` — `mr.NextPart()` failed at this slot;
* `readError` — `io.ReadAll(part)` failed;
* `writeError` — temp-dir creation or temp-file write failed;
* `freshUUID` — the `uuid.NewString()` minted for this part;
* `tempPath` — the name `os.CreateTemp` would pick (src/parser.go). -/
structure Part where
  contentTypeHeader : String
  mediaType : String
  disposition : String
  filenameParam : String
  fileName : String
  transferEncoding : String
  content : String
  decodeResult : Option String
  nextPartError : Bool
  readError : Bool
  writeError : Bool
  freshUUID : String
  tempPath : String
deriving Repr, DecidableEq

/-- The base64 standard alphabet (RFC 4648), for
`base64.StdEncoding.EncodeToString`. -/
def base64Alphabet : List Char :=
  "ABCDEFGHIJKLMNOPQRSTUVWXYZabcdefghijklmnopqrstuvwxyz0123456789+/".data

/-- Character of the standard base64 alphabet at index `n`. -/
def base64Char (n : Nat) : Char := base64Alphabet.getD n 'A'

/-- Standard base64 encoding of a byte list, with `=` padding
(`base64.StdEncoding.EncodeToString`). -/
def base64EncodeBytes : List Nat → String
  | [] => ""
  | [b1] =>
    String.mk [base64Char (b1 / 4), base64Char (b1 % 4 * 16), '=', '=']
  | [b1, b2] =>
    String.mk [base64Char (b1 / 4), base64Char (b1 % 4 * 16 + b2 / 16),
               base64Char (b2 % 16 * 4), '=']
  | b1 :: b2 :: b3 :: rest =>
    String.mk [base64Char (b1 / 4), base64Char (b1 % 4 * 16 + b2 / 16),
               base64Char (b2 % 16 * 4 + b3 / 64), base64Char (b3 % 64)] ++
    base64EncodeBytes rest

/-- Base64 of a byte string. -/
def base64Encode (s : String) : String := base64EncodeBytes (Str.bytes s)

/-- Go's `filepath.Base`: `"."` for the empty path, `"/"` when the path
is all separators, otherwise the last non-empty component. -/
def baseName (path : String) : String :=
  if path = "" then "."
  else
    match (Str.splitOn '/' path).reverse.dropWhile (fun c => c = "") with
    | [] => "/"
    | c :: _ => c

end Mime

namespace Backend

open Handler Mime

/-- State of one `backend.Session` (src/backend/session.go).  Only the
fields read or written by the modelled methods are kept; the Go struct's
pool and logger handles are process plumbing with no session state.  The
Go field `to` is called `rcptTo` here (`to` is reserved in Lean). -/
structure Session where
  uuid : String
  serverName : String
  remoteAddr : String
  maxMessageSize : Nat
  maxRecipients : Nat
  includeRaw : Bool
  attachmentMode : String
  tempDir : String
  mailFrom : String
  rcptTo : List String
  helo : String
  authAttempted : Bool
  authMechanism : String
  authUsername : String
  authPassword : String
deriving Repr, DecidableEq

/-- An SMTP error reply `smtp.SMTPError{Code, Message}`. -/
structure SMTPError where
  code : Nat
  message : String
deriving Repr, DecidableEq

/-- `Session.AuthPlain` (src/backend/session.go): capture credentials,
always succeed. -/
def Session.AuthPlain (s : Session) (username password : String) : Session :=
  { s with authAttempted := true, authMechanism := "PLAIN",
           authUsername := username, authPassword := password }

/-- `Session.Mail` (src/backend/session.go): record the return path. -/
def Session.Mail (s : Session) (mailFrom : String) : Session :=
  { s with mailFrom := mailFrom }

/-- `Session.Rcpt` (src/backend/session.go lines 127-138): reject with
452 when the recipient list already has `maxRecipients` entries,
otherwise append and succeed (`nil` error = 250 reply). -/
def Session.Rcpt (s : Session) (toAddr : String) : Option SMTPError × Session :=
  if s.rcptTo.length ≥ s.maxRecipients then
    (some ⟨452, "Too many recipients"⟩, s)
  else
    (none, { s with rcptTo := s.rcptTo ++ [toAddr] })

/-- `Session.Reset` (src/backend/session.go lines 236-245): RSET zeroes
the envelope and the captured auth data. -/
def Session.Reset (s : Session) : Session :=
  { s with mailFrom := "", rcptTo := [], authAttempted := false,
           authMechanism := "", authUsername := "", authPassword := "" }

/-- `decodeContent` (src/unnamed/part_001 lines 264-293): dispatch on
the lower-cased, trimmed `Content-Transfer-Encoding`.  `base64` and
`quoted-printable` call the standard-library decoder (its outcome is
the `decodeResult` oracle, `none` on failure, which the callers turn
into a fall-back to the raw bytes); `7bit`, `8bit`, `binary`, the empty
value, and anything unknown are identity. -/
def decodeContent (content : String) (decodeResult : Option String)
    (encoding : String) : Option String :=
  let e := Str.toLower (Str.trim encoding)
  if e = "base64" then decodeResult
  else if e = "quoted-printable" then decodeResult
  else some content

/-- The attachment classification of `ParseEmail` (src/unnamed/part_001
lines 135-137): the disposition value begins with `attachment`, or the
disposition carries a non-empty `filename` parameter and the part's
media type is neither `text/plain` nor `text/html`. -/
def isAttachmentPart (p : Part) : Bool :=
  Str.startsWith p.disposition "attachment" ||
    (p.filenameParam ≠ "" && p.mediaType ≠ "text/plain" && p.mediaType ≠ "text/html")

/-- `extractAttachment` (src/unnamed/part_001 lines 208-261): read the
part (`none` on read failure — the caller skips the part), decode with
fall-back to the raw bytes, record the decoded size, then store per the
storage mode: `memory` inlines the base64 of the decoded bytes,
`tempfile` writes `<tempDir>/<emailUUID>_<freshUUID>_<basename>` (`none`
when the directory or file write fails). -/
def extractAttachment (p : Part) (filename mode tempDir emailUUID : String) :
    Option Attachment :=
  if p.readError then none
  else
    let decoded := (decodeContent p.content p.decodeResult p.transferEncoding).getD p.content
    let base : Attachment :=
      { filename := filename, contentType := p.mediaType,
        size := (Str.bytes decoded).length, content := "", path := "" }
    if mode = "memory" then
      some { base with content := base64Encode decoded }
    else if mode = "tempfile" then
      if p.writeError then none
      else
        some { base with
               path := tempDir ++ "/" ++ emailUUID ++ "_" ++ p.freshUUID ++ "_"
                       ++ baseName filename }
    else some base

/-- Accumulator of the multipart loop in `ParseEmail`
(src/unnamed/part_001 lines 116-176): the text body slot, the HTML body
slot, and the attachment list. -/
structure LoopState where
  textBody : String
  htmlBody : String
  attachments : List Attachment
deriving Repr, DecidableEq

/-- One iteration of the multipart loop of `ParseEmail`
(src/unnamed/part_001 lines 119-176).  A `NextPart` error skips the
part.  An attachment-classified part gets the default filename
`attachment_<N>` (N = 1-based attachment index) when the `filename`
parameter is empty, and is appended unless extraction fails.  A
body-classified part is read (read failures skip it), decoded with
fall-back to the raw bytes, and routed by media type: `text/plain`
overwrites the text slot, `text/html` the HTML slot, anything else is
ignored. -/
def processOnePart (mode tempDir emailUUID : String) (st : LoopState) (p : Part) :
    LoopState :=
  if p.nextPartError then st
  else if isAttachmentPart p then
    let filename :=
      if p.filenameParam = "" then "attachment_" ++ toString (st.attachments.length + 1)
      else p.filenameParam
    match extractAttachment p filename mode tempDir emailUUID with
    | none => st
    | some a => { st with attachments := st.attachments ++ [a] }
  else if p.readError then st
  else
    let decoded := (decodeContent p.content p.decodeResult p.transferEncoding).getD p.content
    if p.mediaType = "text/plain" then { st with textBody := decoded }
    else if p.mediaType = "text/html" then { st with htmlBody := decoded }
    else st

/-- The whole multipart loop of `ParseEmail`, folding
`processOnePart` over the parts in stream order. -/
def processParts (mode tempDir emailUUID : String) (parts : List Part)
    (st : LoopState) : LoopState :=
  parts.foldl (processOnePart mode tempDir emailUUID) st

/-- The view of the raw message that the Go standard library hands to
`ParseEmail`: the outcome of `mail.ReadMessage` (header map, body
stream) and `mime.ParseMediaType`:

* `headers` — `msg.Header` (name, value list);
* `contentTypeHeader` — `msg.Header.Get("Content-Type")` (`""` absent);
* `mediaParse` — `mime.ParseMediaType` on it: `none` on parse error,
  otherwise the media type and the `boundary` parameter (`""` absent);
* `bodyRead` — `io.ReadAll(msg.Body)` (`none` = read failure);
* `bodyDecodeResult` — standard-library decode of that body under the
  message's `Content-Transfer-Encoding` (`none` = decode failure);
* `transferEncoding` — `msg.Header.Get("Content-Transfer-Encoding")`;
* `parts` — the multipart stream, when the message is multipart. -/
structure ParsedMessage where
  headers : List (String × List String)
  contentTypeHeader : String
  mediaParse : Option (String × String)
  bodyRead : Option String
  bodyDecodeResult : Option String
  transferEncoding : String
  parts : List Part
deriving Repr

/-- Header collapsing of `ParseEmail` (src/unnamed/part_001 lines
47-51): each multi-value header is joined with `", "`. -/
def joinHeaders (hs : List (String × List String)) : List (String × String) :=
  hs.map (fun kv => (kv.1, String.intercalate ", " kv.2))

/-- `ParseEmail` (src/unnamed/part_001 lines 23-205).  Builds the event
(envelope; auth record iff `authAttempted`; raw copy iff `includeRaw`),
then fills body and attachments: no `Content-Type` → the raw body
(read failure is an error); unparsable `Content-Type` → the raw body
(read failure ignored); `multipart/*` → boundary required, then the
part loop, body = HTML slot if non-empty else text slot; any other
media type → the decoded body (read failure is an error, decode failure
falls back to the raw bytes). -/
def ParseEmail (msg : ParsedMessage) (raw : String)
    (emailUUID serverName remoteAddr mailFrom : String) (rcptTo : List String)
    (helo : String) (authAttempted : Bool)
    (authMechanism authUsername authPassword : String) (includeRaw : Bool)
    (mode tempDir : String) (receivedAt : Nat) : Except String EmailEvent :=
  let event0 : EmailEvent :=
    { event := EventEmailReceived, server := serverName, uuid := emailUUID,
      remoteAddr := remoteAddr, receivedAt := receivedAt,
      envelope := { mailFrom := mailFrom, rcptTo := rcptTo, helo := helo },
      authentication :=
        if authAttempted then
          some { attempted := true, mechanism := authMechanism,
                 username := authUsername, password := authPassword }
        else none,
      message := { headers := joinHeaders msg.headers, body := "",
                   raw := if includeRaw then raw else "" },
      attachments := [] }
  if msg.contentTypeHeader = "" then
    match msg.bodyRead with
    | none => .error "failed to read email body"
    | some b => .ok { event0 with message.body := b }
  else
    match msg.mediaParse with
    | none => .ok { event0 with message.body := msg.bodyRead.getD "" }
    | some (mediaType, boundary) =>
      if Str.startsWith mediaType "multipart/" then
        if boundary = "" then .error "multipart message missing boundary"
        else
          let st := processParts mode tempDir emailUUID msg.parts ⟨"", "", []⟩
          .ok { event0 with
                message.body := if st.htmlBody ≠ "" then st.htmlBody else st.textBody,
                attachments := st.attachments }
      else
        match msg.bodyRead with
        | none => .error "failed to read email body"
        | some b =>
          .ok { event0 with
                message.body :=
                  (decodeContent b msg.bodyDecodeResult msg.transferEncoding).getD b }

/-- Oracle inputs for one `Session.Data` call: outcomes of the
`buf.ReadFrom` I/O, the `ParseEmail` call, `json.Marshal`, and the
`phpExec` worker round trip (error, or the reply's `Context` bytes). -/
structure DataOracles where
  readError : Option String
  parseResult : Except String EmailEvent
  marshalError : Option String
  execResult : Except String String
deriving Repr

/-- Result of `Session.Data` as seen by the go-smtp library: `nil`
(250 accept), an `smtp.SMTPError`, or a non-SMTP error returned
verbatim (read / parse / marshal failures). -/
inductive DataReply
  | accepted
  | smtpError (code : Nat) (message : String)
  | passthrough (msg : String)
deriving Repr, DecidableEq

/-- Full outcome of a `Session.Data` call, with explicit flags recording
whether control reached the `ParseEmail` call and the `phpExec` call,
and the session state after the call. -/
structure DataOutcome where
  reply : DataReply
  parserInvoked : Bool
  workerInvoked : Bool
  session : Session
deriving Repr

/-- `Session.Data` (src/backend/session.go lines 141-233).  The body is
read through `io.LimitReader(r, maxMessageSize)`, so the byte count is
`min (length of the client's stream) maxMessageSize`; a count that
reaches the limit is rejected with 552 before parsing; parse and
marshal errors are returned verbatim; a worker error maps to 451; a
reply context equal to `CLOSE` maps to 421; anything else accepts with
250.  No field of the session is assigned anywhere in the method. -/
def Session.Data (s : Session) (bodyBytes : String) (o : DataOracles) : DataOutcome :=
  let n := min bodyBytes.length s.maxMessageSize
  match o.readError with
  | some e => ⟨.passthrough e, false, false, s⟩
  | none =>
    if n ≥ s.maxMessageSize then
      ⟨.smtpError 552 "Message too large", false, false, s⟩
    else
      match o.parseResult with
      | .error e => ⟨.passthrough e, true, false, s⟩
      | .ok _ =>
        match o.marshalError with
        | some e => ⟨.passthrough e, true, false, s⟩
        | none =>
          match o.execResult with
          | .error _ => ⟨.smtpError 451 "Temporary failure processing email", true, true, s⟩
          | .ok rsp =>
            if rsp = Handler.CLOSE then
              ⟨.smtpError 421 "Service closing connection", true, true, s⟩
            else
              ⟨.accepted, true, true, s⟩

end Backend

namespace SmtpPkg

/-- State of one `smtp.Session` of the older generation
(src/unnamed/part_001, second file): captured auth data, envelope,
accumulated DATA bytes, and the `shouldClose` advisory flag.  The Go
field `to` is called `rcptTo` here (`to` is reserved in Lean). -/
structure Session where
  authenticated : Bool
  authUsername : String
  authPassword : String
  authMechanism : String
  mailFrom : String
  rcptTo : List String
  heloName : String
  emailData : String
  shouldClose : Bool
deriving Repr, DecidableEq

/-- `Session.Mail` (older generation): record the return path. -/
def Session.Mail (s : Session) (mailFrom : String) : Session :=
  { s with mailFrom := mailFrom }

/-- `Session.Rcpt` (src/unnamed/part_001 lines 341-348, older
generation): append unconditionally and succeed — no recipient cap in
the handler (the go-smtp library's `MaxRecipients` gate, outside this
repository, runs before it). -/
def Session.Rcpt (s : Session) (toAddr : String) : Session :=
  { s with rcptTo := s.rcptTo ++ [toAddr] }

/-- `Session.Reset` (src/unnamed/part_001 lines 414-420, older
generation): RSET clears the return path, the recipient list and the
DATA buffer — and nothing else: the four auth fields and `shouldClose`
are not touched. -/
def Session.Reset (s : Session) : Session :=
  { s with mailFrom := "", rcptTo := [], emailData := "" }

/-- Oracles for one older-generation `Session.Data` call: the `io.Copy`
outcome, the `parseEmail` outcome, and the `sendToWorker` outcome
(error, or the worker's reply string). -/
structure DataOracles where
  readError : Bool
  parseOk : Bool
  workerResult : Except String String
deriving Repr

/-- `Session.Data` of the older generation (src/unnamed/part_001 lines
352-412): read failure → 451, parse failure → 554, worker failure →
451; the worker reply is only inspected to set `shouldClose` on
`CLOSE` (anything else just logs) — every reply-handling path returns
`nil`, so the client always sees 250.  Returns the `smtp.SMTPError`
(or `none` for `nil`) and the session afterwards. -/
def Session.Data (s : Session) (input : String) (o : DataOracles) :
    Option (Nat × String) × Session :=
  let s1 := { s with emailData := "" }
  if o.readError then (some (451, "Failed to read message"), s1)
  else
    let s2 := { s1 with emailData := input }
    if !o.parseOk then (some (554, "Failed to parse message"), s2)
    else
      match o.workerResult with
      | .error _ => (some (451, "Temporary failure"), s2)
      | .ok r =>
        if r = "CLOSE" then (none, { s2 with shouldClose := true })
        else (none, s2)

/-- Accumulator of the older-generation multipart loop
(src/parser.go): the single body string and the attachment list. -/
structure ParseState where
  body : String
  attachments : List Handler.Attachment
deriving Repr, DecidableEq

/-- `Session.decodeContent` (src/parser.go lines 213-231): `base64` and
`quoted-printable` decode with fall-back to the raw bytes on failure;
everything else is identity.  (Unlike the `backend` variant, the
encoding is lower-cased but not trimmed.) -/
def decodeContent (content : String) (decodeResult : Option String)
    (encoding : String) : String :=
  let e := Str.toLower encoding
  if e = "base64" then decodeResult.getD content
  else if e = "quoted-printable" then decodeResult.getD content
  else content

/-- The content-type clean-up of `processAttachment` (src/parser.go
lines 143-145): cut at the first `;` when it is at a positive index,
trimming the kept half. -/
def stripParams (ct : String) : String :=
  match Str.splitOn ';' ct with
  | [] => ct
  | first :: rest => if rest.isEmpty || first = "" then ct else Str.trim first

/-- `Session.processAttachment` (src/parser.go lines 132-184): default
filename `unnamed`, default content type `application/octet-stream`
with parameters stripped, base64 decode only (case-insensitive match,
failures keep the raw bytes), size = decoded length; memory mode
inlines base64, tempfile mode records the temp path (a write failure
skips the part). -/
def processAttachment (memoryMode : Bool) (p : Mime.Part) (st : ParseState) :
    ParseState :=
  if p.readError then st
  else
    let filename := if p.fileName = "" then "unnamed" else p.fileName
    let ct0 :=
      if p.contentTypeHeader = "" then "application/octet-stream"
      else p.contentTypeHeader
    let content :=
      if Str.toLower p.transferEncoding = "base64" then p.decodeResult.getD p.content
      else p.content
    let att : Handler.Attachment :=
      { filename := filename, contentType := stripParams ct0,
        size := (Str.bytes content).length,
        content := if memoryMode then Mime.base64Encode content else "",
        path := if memoryMode then "" else p.tempPath }
    if !memoryMode && p.writeError then st
    else { st with attachments := st.attachments ++ [att] }

/-- `Session.processPart` (src/parser.go lines 98-129): a part whose
disposition begins with `attachment` or `inline` goes to
`processAttachment`; otherwise, when the raw `Content-Type` header
begins with `text/plain` or `text/html` or is empty, the decoded
content is written into the single body string — appended after
`"\n\n"` when the body is already non-empty; any other part is
ignored. -/
def processPart (memoryMode : Bool) (st : ParseState) (p : Mime.Part) : ParseState :=
  if Str.startsWith p.disposition "attachment" || Str.startsWith p.disposition "inline" then
    processAttachment memoryMode p st
  else if Str.startsWith p.contentTypeHeader "text/plain"
      || Str.startsWith p.contentTypeHeader "text/html"
      || p.contentTypeHeader = "" then
    if p.readError then st
    else
      let decoded := decodeContent p.content p.decodeResult p.transferEncoding
      if st.body = "" then { st with body := decoded }
      else { st with body := st.body ++ "\n\n" ++ decoded }
  else st

/-- The older-generation multipart loop (src/parser.go lines 73-87):
`NextPart` errors skip the slot, every other part goes through
`processPart`. -/
def runParts (memoryMode : Bool) (parts : List Mime.Part) (st : ParseState) :
    ParseState :=
  parts.foldl (fun acc p => if p.nextPartError then acc else processPart memoryMode acc p) st

/-- The dispatcher timeout of `Session.sendToWorker`
(src/unnamed/part_008 line 61: `time.After(30 * time.Second)`). -/
def workerTimeoutSeconds : Nat := 30

/-- `Session.sendToWorker` (src/unnamed/part_008): marshal, build the
payload (JSON in the context slot, empty body), submit to the pool,
then `select` between the reply channel and a 30-second timer.
`replySeconds` is the oracle for when the worker's reply reaches the
channel, measured from submission; the reply branch wins the `select`
exactly when it fires strictly before the timer. -/
def sendToWorker (marshalError : Bool) (poolPresent : Bool)
    (execError : Option String) (replySeconds : Nat)
    (replyError : Option String) (replyContext : String) : Except String String :=
  if marshalError then .error "smtp_marshal_email"
  else if !poolPresent then .error "worker pool not initialized"
  else
    match execError with
    | some e => .error e
    | none =>
      if replySeconds < workerTimeoutSeconds then
        match replyError with
        | some e => .error e
        | none => .ok replyContext
      else .error "worker timeout"

end SmtpPkg

namespace Plugin

/-- A value sitting in the channel `pool.Exec` returned: the reply's
error, its payload context bytes, and its frame flags' `STREAM` bit. -/
structure PExecReply where
  err : Option String
  context : String
  streamFlag : Bool
deriving Repr, DecidableEq

/-- `Plugin.Exec` (src/rpc.go lines 340-366), the dispatcher the
`backend` sessions use.  After `pool.Exec` it runs a `select` with a
`default` branch and no timer: `ready` is the oracle for whether a
reply is already sitting in the channel at that instant.  A present
reply is returned (unless it carries an error or the `STREAM` flag); an
empty channel fails immediately with `worker empty response`.  No path
waits, and no path produces a timeout error. -/
def Exec (execError : Option String) (ready : Option PExecReply) :
    Except String String :=
  match execError with
  | some e => .error e
  | none =>
    match ready with
    | some r =>
      match r.err with
      | some e => .error e
      | none =>
        if r.streamFlag then .error "streaming is not supported"
        else .ok r.context
    | none => .error "worker empty response"

end Plugin

/-! ## Concrete sample inputs used by witnesses and counterexamples -/

/-- A concrete backend session: `max_message_size = 4`,
`max_recipients = 2`, recipient list already at the cap. -/
def sampleSession : Backend.Session :=
  { uuid := "u1", serverName := "srv", remoteAddr := "127.0.0.1:9",
    maxMessageSize := 4, maxRecipients := 2, includeRaw := false,
    attachmentMode := "memory", tempDir := "/tmp", mailFrom := "<a@b>",
    rcptTo := ["<c@d>", "<e@f>"], helo := "x", authAttempted := false,
    authMechanism := "", authUsername := "", authPassword := "" }

/-- A concrete parsed event used as the `ParseEmail` oracle value. -/
def sampleEvent : Handler.EmailEvent :=
  { event := "EMAIL_RECEIVED", server := "srv", uuid := "u1",
    remoteAddr := "127.0.0.1:9", receivedAt := 0,
    envelope := { mailFrom := "<a@b>", rcptTo := ["<c@d>"], helo := "x" },
    authentication := none,
    message := { headers := [], body := "hello", raw := "" },
    attachments := [] }

/-- A concrete older-generation session with captured credentials. -/
def spSession0 : SmtpPkg.Session :=
  { authenticated := true, authUsername := "user", authPassword := "pw",
    authMechanism := "PLAIN", mailFrom := "<a@b>", rcptTo := ["<c@d>"],
    heloName := "client", emailData := "", shouldClose := false }

/-- A `text/plain` body part carrying `a`, no disposition, no errors. -/
def textPart : Mime.Part :=
  { contentTypeHeader := "text/plain", mediaType := "text/plain", disposition := "",
    filenameParam := "", fileName := "", transferEncoding := "", content := "a",
    decodeResult := none, nextPartError := false, readError := false,
    writeError := false, freshUUID := "f1", tempPath := "/tmp/t1" }

/-- A `text/html` body part carrying `b`, no disposition, no errors. -/
def htmlPart : Mime.Part :=
  { textPart with
    contentTypeHeader := "text/html", mediaType := "text/html",
    content := "b" }

/-- An `inline`-disposed `text/plain` part with no filename. -/
def inlinePart : Mime.Part :=
  { contentTypeHeader := "text/plain", mediaType := "text/plain",
    disposition := "inline", filenameParam := "", fileName := "",
    transferEncoding := "", content := "hi", decodeResult := none,
    nextPartError := false, readError := false, writeError := false,
    freshUUID := "f", tempPath := "/tmp/x" }

/-- A PDF attachment part: `attachment` disposition with filename,
base64 transfer encoding. -/
def pdfPart : Mime.Part :=
  { contentTypeHeader := "application/pdf", mediaType := "application/pdf",
    disposition := "attachment; filename=r.pdf", filenameParam := "r.pdf",
    fileName := "r.pdf", transferEncoding := "base64",
    content := "JVBERi0xLjQ=", decodeResult := some "%PDF-1.4",
    nextPartError := false, readError := false, writeError := false,
    freshUUID := "f2", tempPath := "/tmp/t2" }

/-- A multipart message view with a text part then an html part. -/
def sampleMultipartMsg : Backend.ParsedMessage :=
  { headers := [("Content-Type", ["multipart/mixed; boundary=b"])],
    contentTypeHeader := "multipart/mixed; boundary=b",
    mediaParse := some ("multipart/mixed", "b"),
    bodyRead := none, bodyDecodeResult := none, transferEncoding := "",
    parts := [textPart, htmlPart] }

/-- A plain message view: `Subject: hi`, no `Content-Type`, body read
succeeds, no parts. -/
def sampleNoAttMsg : Backend.ParsedMessage :=
  { headers := [("Subject", ["hi"])], contentTypeHeader := "",
    mediaParse := none, bodyRead := some "hello", bodyDecodeResult := none,
    transferEncoding := "", parts := [] }

/-- `ParseEmail` applied to `sampleNoAttMsg` with no auth and no raw. -/
def sampleParseNoAtt : Except String Handler.EmailEvent :=
  Backend.ParseEmail sampleNoAttMsg "raw" "u1" "srv" "1.2.3.4:5" "<a@b>"
    ["<c@d>"] "x" false "" "" "" false "memory" "/tmp" 0

/-- The event `sampleParseNoAtt` produces. -/
def sampleEventNoAtt : Handler.EmailEvent :=
  { event := "EMAIL_RECEIVED", server := "srv", uuid := "u1",
    remoteAddr := "1.2.3.4:5", receivedAt := 0,
    envelope := { mailFrom := "<a@b>", rcptTo := ["<c@d>"], helo := "x" },
    authentication := none,
    message := { headers := [("Subject", "hi")], body := "hello", raw := "" },
    attachments := [] }

/-! ## Claim theorems -/

/-- C10.  For every DATA command and every outcome, the backend `Data`
handler leaves the session's envelope and auth fields — from, recipient
list, HELO name, auth-attempted flag, mechanism, username, password —
unchanged. -/
theorem backend_data_preserves_envelope (s : Backend.Session) (bodyBytes : String)
    (o : Backend.DataOracles) :
    (Backend.Session.Data s bodyBytes o).session.mailFrom = s.mailFrom
  ∧ (Backend.Session.Data s bodyBytes o).session.rcptTo = s.rcptTo
  ∧ (Backend.Session.Data s bodyBytes o).session.helo = s.helo
  ∧ (Backend.Session.Data s bodyBytes o).session.authAttempted = s.authAttempted
  ∧ (Backend.Session.Data s bodyBytes o).session.authMechanism = s.authMechanism
  ∧ (Backend.Session.Data s bodyBytes o).session.authUsername = s.authUsername
  ∧ (Backend.Session.Data s bodyBytes o).session.authPassword = s.authPassword := by
  have hsess : (Backend.Session.Data s bodyBytes o).session = s := by
    rcases o with ⟨re, pr, me, ex⟩
    rcases re with _ | e₁ <;> rcases pr with e₂ | ev <;> rcases me with _ | e₃ <;>
      rcases ex with e₄ | rsp <;>
      simp only [Backend.Session.Data] <;>
      (repeat' split) <;> rfl
  simp [hsess]

/-- C1 counterexample.  The claim says a worker reply of exactly
`CLOSE` yields SMTP code 421 and closes the connection.  In the
older-generation `Session.Data` (src/unnamed/part_001, second file),
the `CLOSE` verdict only sets the advisory `shouldClose` flag: the
handler returns `nil`, so the client sees 250 and the connection stays
open — at this concrete input the reply is not 421. -/
theorem smtpPkg_data_close_replies_250 :
    (SmtpPkg.Session.Data spSession0 "msg" ⟨false, true, .ok "CLOSE"⟩).1 = none
  ∧ (SmtpPkg.Session.Data spSession0 "msg" ⟨false, true, .ok "CLOSE"⟩).1
      ≠ some (421, "Service closing connection")
  ∧ (SmtpPkg.Session.Data spSession0 "msg" ⟨false, true, .ok "CLOSE"⟩).2.shouldClose
      = true := by
  refine ⟨rfl, ?_, rfl⟩
  decide

/-- C1 (amended: scoped to the backend session, the behaviour §4.4 of
the spec designates).  In `backend.Session.Data`, once the event is
dispatched and the worker answers, a reply context of exactly `CLOSE`
yields SMTP 421 ("Service closing connection", after which the go-smtp
library closes the connection), and `CONTINUE` or any other reply bytes
yield `nil`, i.e. 250, leaving the connection open. -/
theorem backend_data_verdict_mapping (s : Backend.Session) (bodyBytes : String)
    (o : Backend.DataOracles) (ev : Handler.EmailEvent) (rsp : String)
    (hread : o.readError = none) (hsize : bodyBytes.length < s.maxMessageSize)
    (hparse : o.parseResult = .ok ev) (hmarshal : o.marshalError = none)
    (hexec : o.execResult = .ok rsp) :
    (Backend.Session.Data s bodyBytes o).reply =
      (if rsp = Handler.CLOSE then
         Backend.DataReply.smtpError 421 "Service closing connection"
       else Backend.DataReply.accepted)
  ∧ (Backend.Session.Data s bodyBytes o).workerInvoked = true := by
  have hn : ¬ (min bodyBytes.length s.maxMessageSize ≥ s.maxMessageSize) := by
    omega
  by_cases hc : rsp = Handler.CLOSE <;>
    simp [Backend.Session.Data, hread, hparse, hmarshal, hexec, hn, hc]

/-- C1 witness: both verdicts at concrete inputs. -/
theorem backend_data_verdict_mapping_witness :
    (Backend.Session.Data sampleSession "hi"
        ⟨none, .ok sampleEvent, none, .ok "CLOSE"⟩).reply
      = Backend.DataReply.smtpError 421 "Service closing connection"
  ∧ (Backend.Session.Data sampleSession "hi"
        ⟨none, .ok sampleEvent, none, .ok "CONTINUE"⟩).reply
      = Backend.DataReply.accepted := by
  have h1 := backend_data_verdict_mapping sampleSession "hi"
    ⟨none, .ok sampleEvent, none, .ok "CLOSE"⟩ sampleEvent "CLOSE"
    rfl (by decide) rfl rfl rfl
  have h2 := backend_data_verdict_mapping sampleSession "hi"
    ⟨none, .ok sampleEvent, none, .ok "CONTINUE"⟩ sampleEvent "CONTINUE"
    rfl (by decide) rfl rfl rfl
  refine ⟨?_, ?_⟩
  · rw [h1.1]; simp [Handler.CLOSE]
  · rw [h2.1]; simp [Handler.CLOSE]

/-- C2.  In `backend.Session.Data`, when the read succeeds and the
client's stream holds at least `max_message_size` bytes, the capped
count reaches the limit, the command fails with SMTP 552 ("Message too
large"), and neither `ParseEmail` nor the worker is invoked. -/
theorem backend_data_oversize_552 (s : Backend.Session) (bodyBytes : String)
    (o : Backend.DataOracles) (hread : o.readError = none)
    (hsize : s.maxMessageSize ≤ bodyBytes.length) :
    (Backend.Session.Data s bodyBytes o).reply
      = Backend.DataReply.smtpError 552 "Message too large"
  ∧ (Backend.Session.Data s bodyBytes o).parserInvoked = false
  ∧ (Backend.Session.Data s bodyBytes o).workerInvoked = false := by
  have hn : min bodyBytes.length s.maxMessageSize ≥ s.maxMessageSize := by omega
  simp [Backend.Session.Data, hread, hn]

/-- C2 witness: `max_message_size = 4`, an 8-byte payload is rejected
with 552 and the parser and worker flags stay false. -/
theorem backend_data_oversize_552_witness :
    (Backend.Session.Data sampleSession "abcdefgh"
        ⟨none, .ok sampleEvent, none, .ok "CONTINUE"⟩).reply
      = Backend.DataReply.smtpError 552 "Message too large"
  ∧ (Backend.Session.Data sampleSession "abcdefgh"
        ⟨none, .ok sampleEvent, none, .ok "CONTINUE"⟩).parserInvoked = false :=
  have h := backend_data_oversize_552 sampleSession "abcdefgh"
    ⟨none, .ok sampleEvent, none, .ok "CONTINUE"⟩ rfl (by decide)
  ⟨h.1, h.2.1⟩

/-- C9.  In `backend.Session.Data` with a successful read, a body of
exactly `max_message_size` bytes is rejected with 552 (the limit reader
caps the count at the limit and the check fires on `count ≥ limit`),
and whenever the parser is invoked the body held at most
`max_message_size − 1` bytes. -/
theorem backend_data_limit_boundary (s : Backend.Session) (bodyBytes : String)
    (o : Backend.DataOracles) (hread : o.readError = none) :
    (bodyBytes.length = s.maxMessageSize →
       (Backend.Session.Data s bodyBytes o).reply
         = Backend.DataReply.smtpError 552 "Message too large"
       ∧ (Backend.Session.Data s bodyBytes o).parserInvoked = false)
  ∧ ((Backend.Session.Data s bodyBytes o).parserInvoked = true →
       bodyBytes.length + 1 ≤ s.maxMessageSize) := by
  constructor
  · intro hlen
    have hn : min bodyBytes.length s.maxMessageSize ≥ s.maxMessageSize := by omega
    simp [Backend.Session.Data, hread, hn]
  · intro hpi
    by_contra hle
    have hn : min bodyBytes.length s.maxMessageSize ≥ s.maxMessageSize := by omega
    simp [Backend.Session.Data, hread, hn] at hpi

/-- C9 witness: a body of exactly `max_message_size = 4` bytes gets
552 and the parser is not invoked. -/
theorem backend_data_limit_boundary_witness :
    (Backend.Session.Data sampleSession "abcd"
        ⟨none, .ok sampleEvent, none, .ok "CONTINUE"⟩).reply
      = Backend.DataReply.smtpError 552 "Message too large"
  ∧ (Backend.Session.Data sampleSession "abcd"
        ⟨none, .ok sampleEvent, none, .ok "CONTINUE"⟩).parserInvoked = false :=
  (backend_data_limit_boundary sampleSession "abcd"
    ⟨none, .ok sampleEvent, none, .ok "CONTINUE"⟩ rfl).1 (by decide)

/-- C6.  In `backend.Session.Rcpt`: when the recipient list already
holds `max_recipients` addresses, RCPT TO fails with SMTP 452 ("Too
many recipients") and the session (hence the list) is unchanged; when
the list holds fewer, RCPT TO succeeds (`nil` = 250) and appends the
address. -/
theorem backend_rcpt_recipient_cap (s : Backend.Session) (toAddr : String) :
    (s.rcptTo.length = s.maxRecipients →
       Backend.Session.Rcpt s toAddr = (some ⟨452, "Too many recipients"⟩, s))
  ∧ (s.rcptTo.length < s.maxRecipients →
       (Backend.Session.Rcpt s toAddr).1 = none
     ∧ (Backend.Session.Rcpt s toAddr).2.rcptTo = s.rcptTo ++ [toAddr]) := by
  constructor
  · intro h
    simp [Backend.Session.Rcpt, h]
  · intro h
    have hn : ¬ s.rcptTo.length ≥ s.maxRecipients := by omega
    simp [Backend.Session.Rcpt, hn]

/-- C6 witness: with `max_recipients = 2` and two recipients already
recorded, a third RCPT TO gets 452 and leaves the session unchanged;
on an empty list it appends and succeeds. -/
theorem backend_rcpt_recipient_cap_witness :
    Backend.Session.Rcpt sampleSession "<g@h>"
      = (some ⟨452, "Too many recipients"⟩, sampleSession)
  ∧ (Backend.Session.Rcpt (Backend.Session.Reset sampleSession) "<g@h>").1 = none :=
  ⟨(backend_rcpt_recipient_cap sampleSession "<g@h>").1 (by decide),
   ((backend_rcpt_recipient_cap (Backend.Session.Reset sampleSession) "<g@h>").2
     (by decide)).1⟩

/-- C7 counterexample.  The claim says that after RSET the
auth-attempted flag is false and username, password and mechanism are
cleared.  The older-generation `Session.Reset` (src/unnamed/part_001
lines 414-420) clears only `from`, `to` and the data buffer: at this
concrete session the captured credentials and the auth flag survive
RSET. -/
theorem smtpPkg_reset_preserves_auth :
    (SmtpPkg.Session.Reset spSession0).mailFrom = ""
  ∧ (SmtpPkg.Session.Reset spSession0).rcptTo = []
  ∧ (SmtpPkg.Session.Reset spSession0).emailData = ""
  ∧ (SmtpPkg.Session.Reset spSession0).authenticated = true
  ∧ ¬ ((SmtpPkg.Session.Reset spSession0).authenticated = false)
  ∧ (SmtpPkg.Session.Reset spSession0).authUsername = "user"
  ∧ (SmtpPkg.Session.Reset spSession0).authMechanism = "PLAIN" := by
  refine ⟨rfl, rfl, rfl, rfl, ?_, rfl, rfl⟩
  decide

/-- C7 (amended: scoped to the backend session; its DATA buffer is
pooled per call, so the session holds no body buffer to clear).  For
every backend session, immediately after RSET the MAIL FROM address is
empty, the recipient list is empty, the auth-attempted flag is false,
and the captured mechanism, username and password are cleared. -/
theorem backend_reset_clears_envelope (s : Backend.Session) :
    (Backend.Session.Reset s).mailFrom = ""
  ∧ (Backend.Session.Reset s).rcptTo = []
  ∧ (Backend.Session.Reset s).authAttempted = false
  ∧ (Backend.Session.Reset s).authMechanism = ""
  ∧ (Backend.Session.Reset s).authUsername = ""
  ∧ (Backend.Session.Reset s).authPassword = "" := by
  simp [Backend.Session.Reset]

/-- C8 counterexample.  The claim says every dispatch waits up to 30
seconds and, failing that, errors with a timeout.  `Plugin.Exec`
(src/rpc.go) — the dispatcher the backend sessions actually use — has
no timer at all: at the concrete input where the reply channel is
empty at its `select` (a reply still on its way, e.g. due in 5 s, well
inside 30 s), it fails immediately with `worker empty response`, which
is not a timeout error, and the awaited reply is never returned. -/
theorem plugin_exec_no_timeout_wait :
    Plugin.Exec none none = Except.error "worker empty response"
  ∧ Plugin.Exec none none ≠ Except.error "worker timeout"
  ∧ Plugin.Exec none none ≠ Except.ok "CONTINUE" := by
  refine ⟨rfl, ?_, ?_⟩
  · intro h
    exact absurd (Except.error.inj h) (by decide)
  · intro h
    exact Except.noConfusion h

/-- C8 (amended).  The 30-second contract holds only for the
older-generation `Session.sendToWorker`: a reply reaching the channel
strictly before the 30-second timer is returned, and otherwise the
call fails with the `worker timeout` error.  The backend dispatcher
`Plugin.Exec` does not wait: a reply already in the channel is
returned, an empty channel fails at once with `worker empty
response`. -/
theorem dispatcher_timeout_behavior (replySeconds : Nat) (replyContext : String)
    (r : Plugin.PExecReply) (hr : r.err = none) (hs : r.streamFlag = false) :
    (replySeconds < SmtpPkg.workerTimeoutSeconds →
       SmtpPkg.sendToWorker false true none replySeconds none replyContext
         = Except.ok replyContext)
  ∧ (SmtpPkg.workerTimeoutSeconds ≤ replySeconds →
       SmtpPkg.sendToWorker false true none replySeconds none replyContext
         = Except.error "worker timeout")
  ∧ Plugin.Exec none (some r) = Except.ok r.context
  ∧ Plugin.Exec none none = Except.error "worker empty response" := by
  refine ⟨?_, ?_, ?_, rfl⟩
  · intro h
    simp [SmtpPkg.sendToWorker, h]
  · intro h
    have hn : ¬ replySeconds < SmtpPkg.workerTimeoutSeconds := by omega
    simp [SmtpPkg.sendToWorker, hn]
  · simp [Plugin.Exec, hr, hs]

/-- C8 witness: a reply after 5 s is returned, a reply after exactly
30 s is lost to the timer. -/
theorem dispatcher_timeout_behavior_witness :
    SmtpPkg.sendToWorker false true none 5 none "CONTINUE" = Except.ok "CONTINUE"
  ∧ SmtpPkg.sendToWorker false true none 30 none "CONTINUE"
      = Except.error "worker timeout"
  ∧ Plugin.Exec none (some ⟨none, "CONTINUE", false⟩) = Except.ok "CONTINUE" := by
  have h5 := dispatcher_timeout_behavior 5 "CONTINUE" ⟨none, "CONTINUE", false⟩ rfl rfl
  have h30 := dispatcher_timeout_behavior 30 "CONTINUE" ⟨none, "CONTINUE", false⟩ rfl rfl
  exact ⟨h5.1 (by decide), h30.2.1 (by decide), h5.2.2.1⟩

/-- C4 counterexample.  The claim's rule classifies a part as an
attachment iff its disposition begins with `attachment`, or it has a
non-empty `filename` and a non-text media type — `inlinePart`
(disposition `inline`, `text/plain`, no filename) is body content
under that rule (`Backend.isAttachmentPart`, the literal rule from
src/unnamed/part_001).  Yet the older-generation `processPart`
(src/parser.go lines 102-105) classifies by the `attachment`/`inline`
disposition prefixes alone and files this concrete part as an
attachment, contributing nothing to the body. -/
theorem smtpPkg_inline_part_classified_attachment :
    Backend.isAttachmentPart inlinePart = false
  ∧ (SmtpPkg.processPart true ⟨"", []⟩ inlinePart).attachments.length = 1
  ∧ (SmtpPkg.processPart true ⟨"", []⟩ inlinePart).body = "" := by
  refine ⟨by decide, by decide, rfl⟩

/-- C4 (amended: scoped to the `ParseEmail` loop of the backend
parser).  With no stream or read error and memory storage, a part is
appended to the attachment list iff its disposition begins with
`attachment` or its disposition parameters carry a non-empty
`filename` while the part's media type is neither `text/plain` nor
`text/html`; every other part leaves the attachment list unchanged
(it is routed to the body slots instead), and attachment parts leave
the body slots unchanged. -/
theorem parseEmail_attachment_classification (mode tempDir emailUUID : String)
    (p : Mime.Part) (st : Backend.LoopState)
    (hnp : p.nextPartError = false) (hre : p.readError = false)
    (hmode : mode = "memory") :
    (Backend.isAttachmentPart p = true ↔
      (Str.startsWith p.disposition "attachment" = true
        ∨ (p.filenameParam ≠ "" ∧ p.mediaType ≠ "text/plain"
            ∧ p.mediaType ≠ "text/html")))
  ∧ (Backend.isAttachmentPart p = true →
      (Backend.processOnePart mode tempDir emailUUID st p).attachments.length
          = st.attachments.length + 1
      ∧ (Backend.processOnePart mode tempDir emailUUID st p).textBody = st.textBody
      ∧ (Backend.processOnePart mode tempDir emailUUID st p).htmlBody = st.htmlBody)
  ∧ (Backend.isAttachmentPart p = false →
      (Backend.processOnePart mode tempDir emailUUID st p).attachments
        = st.attachments) := by
  subst hmode
  refine ⟨?_, ?_, ?_⟩
  · simp [Backend.isAttachmentPart, and_assoc]
  · intro h
    simp [Backend.processOnePart, hnp, h, Backend.extractAttachment, hre]
  · intro h
    simp only [Backend.processOnePart, hnp, h, hre, Bool.false_eq_true, if_false]
    (repeat' split) <;> rfl

/-- C4 witness: the PDF part (disposition `attachment`, filename,
non-text media type) is classified as an attachment and appended; the
plain-text body part is not. -/
theorem parseEmail_attachment_classification_witness :
    Backend.isAttachmentPart pdfPart = true
  ∧ (Backend.processOnePart "memory" "/tmp" "u1" ⟨"", "", []⟩ pdfPart).attachments.length
      = 1
  ∧ Backend.isAttachmentPart textPart = false
  ∧ (Backend.processOnePart "memory" "/tmp" "u1" ⟨"", "", []⟩ textPart).attachments
      = [] := by
  have hp := parseEmail_attachment_classification "memory" "/tmp" "u1" pdfPart
    ⟨"", "", []⟩ rfl rfl rfl
  have ht := parseEmail_attachment_classification "memory" "/tmp" "u1" textPart
    ⟨"", "", []⟩ rfl rfl rfl
  refine ⟨by decide, ?_, by decide, ?_⟩
  · simpa using (hp.2.1 (by decide)).1
  · simpa using ht.2.2 (by decide)

/-- C3 counterexample.  The claim says the body is the HTML rendering
when present, otherwise the text rendering, and the two are never
concatenated.  The older-generation multipart loop (src/parser.go
`processPart`) keeps a single body string and appends: on the concrete
two-part input text `a` then html `b`, the resulting body is the
concatenation `a\n\nb` — neither the html rendering `b` (though it is
non-empty) nor the text rendering `a`. -/
theorem smtpPkg_multipart_body_concatenates :
    (SmtpPkg.runParts true [textPart, htmlPart] ⟨"", []⟩).body = "a\n\nb"
  ∧ (SmtpPkg.runParts true [textPart, htmlPart] ⟨"", []⟩).body ≠ "b"
  ∧ (SmtpPkg.runParts true [textPart, htmlPart] ⟨"", []⟩).body ≠ "a" := by
  refine ⟨by decide, by decide, by decide⟩

/-- C3 (amended: scoped to the backend parser `ParseEmail`).  For every
message parsed as multipart, the event's body is the (decoded) HTML
slot whenever that slot is non-empty and otherwise the (decoded) text
slot; the body is always exactly one of the two slots, never a
concatenation. -/
theorem parseEmail_body_selection (msg : Backend.ParsedMessage) (raw : String)
    (emailUUID serverName remoteAddr mailFrom : String) (rcptTo : List String)
    (helo : String) (authAttempted : Bool)
    (authMechanism authUsername authPassword : String) (includeRaw : Bool)
    (mode tempDir : String) (receivedAt : Nat) (mediaType boundary : String)
    (hct : msg.contentTypeHeader ≠ "")
    (hmp : msg.mediaParse = some (mediaType, boundary))
    (hmulti : Str.startsWith mediaType "multipart/" = true)
    (hb : boundary ≠ "") :
    ∃ e, Backend.ParseEmail msg raw emailUUID serverName remoteAddr mailFrom rcptTo
          helo authAttempted authMechanism authUsername authPassword includeRaw
          mode tempDir receivedAt = .ok e
      ∧ e.message.body =
          (if (Backend.processParts mode tempDir emailUUID msg.parts
                ⟨"", "", []⟩).htmlBody ≠ "" then
            (Backend.processParts mode tempDir emailUUID msg.parts ⟨"", "", []⟩).htmlBody
           else
            (Backend.processParts mode tempDir emailUUID msg.parts ⟨"", "", []⟩).textBody)
      ∧ (e.message.body
            = (Backend.processParts mode tempDir emailUUID msg.parts ⟨"", "", []⟩).htmlBody
         ∨ e.message.body
            = (Backend.processParts mode tempDir emailUUID msg.parts ⟨"", "", []⟩).textBody) := by
  simp only [Backend.ParseEmail, if_neg hct, hmp, hmulti, if_true, if_neg hb]
  refine ⟨_, rfl, rfl, ?_⟩
  by_cases hh :
      (Backend.processParts mode tempDir emailUUID msg.parts ⟨"", "", []⟩).htmlBody ≠ ""
  · exact Or.inl (by simp [hh])
  · exact Or.inr (by simp [hh])

/-- C3 witness: the two-part multipart message (text `a`, html `b`)
parses and its body is the selected slot. -/
theorem parseEmail_body_selection_witness :
    ∃ e, Backend.ParseEmail sampleMultipartMsg "raw" "u1" "srv" "1.2.3.4:5" "<a@b>"
          ["<c@d>"] "x" false "" "" "" false "memory" "/tmp" 0 = .ok e
      ∧ e.message.body =
          (if (Backend.processParts "memory" "/tmp" "u1" sampleMultipartMsg.parts
                ⟨"", "", []⟩).htmlBody ≠ "" then
            (Backend.processParts "memory" "/tmp" "u1" sampleMultipartMsg.parts
              ⟨"", "", []⟩).htmlBody
           else
            (Backend.processParts "memory" "/tmp" "u1" sampleMultipartMsg.parts
              ⟨"", "", []⟩).textBody)
      ∧ (e.message.body
            = (Backend.processParts "memory" "/tmp" "u1" sampleMultipartMsg.parts
                ⟨"", "", []⟩).htmlBody
         ∨ e.message.body
            = (Backend.processParts "memory" "/tmp" "u1" sampleMultipartMsg.parts
                ⟨"", "", []⟩).textBody) :=
  parseEmail_body_selection sampleMultipartMsg "raw" "u1" "srv" "1.2.3.4:5" "<a@b>"
    ["<c@d>"] "x" false "" "" "" false "memory" "/tmp" 0 "multipart/mixed" "b"
    (by decide) rfl (by decide) (by decide)

/-- C5 counterexample.  The claim says an empty attachment list
serializes as an empty JSON array rather than being absent.  The
`EmailEvent` struct (src/unnamed/part_007) tags the field
`json:"attachments,omitempty"`, and under Go's `omitempty` a
zero-length slice is omitted: at this concrete no-attachment parse the
event's attachment list is empty and the `attachments` field is absent
from the JSON, not an empty array. -/
theorem emailEvent_empty_attachments_omitted :
    sampleParseNoAtt.toOption.map Handler.EmailEvent.attachments = some []
  ∧ sampleParseNoAtt.toOption.map Handler.EmailEvent.attachmentsFieldPresent
      = some false := by
  refine ⟨by decide, by decide⟩

/-- C5 (amended: the `attachments` field is omitted when the list is
empty, not serialized as an empty array).  For every event `ParseEmail`
produces: the `attachments` field is present in the JSON iff the list
is non-empty; the `authentication` object is present iff
authentication was attempted; and the `raw` field is present iff it is
non-empty — `ParseEmail` fills it exactly when `includeRaw` is set and
the raw bytes are non-empty. -/
theorem emailEvent_field_presence (msg : Backend.ParsedMessage) (raw : String)
    (emailUUID serverName remoteAddr mailFrom : String) (rcptTo : List String)
    (helo : String) (authAttempted : Bool)
    (authMechanism authUsername authPassword : String) (includeRaw : Bool)
    (mode tempDir : String) (receivedAt : Nat) (e : Handler.EmailEvent)
    (h : Backend.ParseEmail msg raw emailUUID serverName remoteAddr mailFrom rcptTo
          helo authAttempted authMechanism authUsername authPassword includeRaw
          mode tempDir receivedAt = .ok e) :
    (e.attachmentsFieldPresent = true ↔ e.attachments ≠ [])
  ∧ (e.authenticationFieldPresent = true ↔ authAttempted = true)
  ∧ (e.rawFieldPresent = true ↔ (includeRaw = true ∧ raw ≠ "")) := by
  have hfields : e.authentication =
      (if authAttempted then
        some { attempted := true, mechanism := authMechanism,
               username := authUsername, password := authPassword }
       else none)
    ∧ e.message.raw = (if includeRaw then raw else "") := by
    simp only [Backend.ParseEmail] at h
    cases authAttempted <;> cases includeRaw <;> simp at h ⊢ <;>
      (repeat' split at h) <;>
      first
      | exact Except.noConfusion h
      | (injection h with h2; subst h2; exact ⟨rfl, rfl⟩)
  obtain ⟨h1, h2⟩ := hfields
  refine ⟨?_, ?_, ?_⟩
  · cases hA : e.attachments <;>
      simp [Handler.EmailEvent.attachmentsFieldPresent, hA]
  · cases authAttempted <;>
      simp [Handler.EmailEvent.authenticationFieldPresent, h1]
  · cases includeRaw <;>
      simp [Handler.EmailEvent.rawFieldPresent, h2]

/-- C5 witness: the concrete no-attachment, no-auth, no-raw parse. -/
theorem emailEvent_field_presence_witness :
    (sampleEventNoAtt.attachmentsFieldPresent = true
        ↔ sampleEventNoAtt.attachments ≠ [])
  ∧ (sampleEventNoAtt.authenticationFieldPresent = true ↔ false = true)
  ∧ (sampleEventNoAtt.rawFieldPresent = true ↔ (false = true ∧ "raw" ≠ "")) :=
  emailEvent_field_presence sampleNoAttMsg "raw" "u1" "srv" "1.2.3.4:5" "<a@b>"
    ["<c@d>"] "x" false "" "" "" false "memory" "/tmp" 0 sampleEventNoAtt rfl
